import Mathlib

/-!
Verification development for the EV3_EcoEnergy repository
(`dispositivos/models.py`, `dispositivos/admin.py`, `dispositivos/middleware.py`).

The repository is a Django admin configuration over a multi-tenant
device-monitoring data model.  We shallowly embed the parts with logic:

* the entity model (`models.py`): Category, Zone, Organization, Device,
  Measurement, Alert, UserProfile, all sharing the abstract `BaseModel`
  fields `state`, `created_at`, `updated_at`, `deleted_at`;
* the organization scoping of the admin (`admin.py`):
  `OrganizationFilteredAdmin.get_queryset`, the master-data admins that do
  not filter, and the bulk actions `mark_as_active`, `mark_as_inactive`,
  `mark_as_resolved`, `mark_as_unresolved`, `generate_usage_report`;
* the `UserProfile` role-policy methods `has_organization_access`,
  `can_edit_devices`, `can_view_all_organizations`.

Timestamps are modelled as `Nat` instants; a Django queryset is modelled as
the list of live table rows it ranges over, and `queryset.update(...)` as a
single pass over the table rows guarded by the queryset predicate, returning
the matched-row count (Django's `.update` return value).  `FloatField` values
(`Measurement.usage`) are modelled as `Rat`; no claim computes with them.
-/

namespace EcoEnergy

/-- `BaseModel.STATES`: the two-valued record state, default `ACTIVE`. -/
inductive RecState where
  | ACTIVE
  | INACTIVE
deriving DecidableEq, Repr

/-- `Alert.LEVELS`: alert criticality, default `MEDIUM`. -/
inductive AlertLevel where
  | CRITICAL
  | HIGH
  | MEDIUM
  | LOW
deriving DecidableEq, Repr

/-- `UserProfile.role` choices, default `VIEWER`. -/
inductive Role where
  | ADMIN
  | OPERATOR
  | VIEWER
  | MANAGER
deriving DecidableEq, Repr

/-- `models.Category`: master-data taxonomy row with the `BaseModel` fields. -/
structure Category where
  id : Nat
  name : String
  state : RecState
  created_at : Nat
  updated_at : Nat
  deleted_at : Option Nat
deriving DecidableEq, Repr

/-- `models.Zone`: master-data taxonomy row with the `BaseModel` fields. -/
structure Zone where
  id : Nat
  name : String
  state : RecState
  created_at : Nat
  updated_at : Nat
  deleted_at : Option Nat
deriving DecidableEq, Repr

/-- `models.Organization`: tenancy root, unique name and email. -/
structure Organization where
  id : Nat
  name : String
  email : String
  state : RecState
  created_at : Nat
  updated_at : Nat
  deleted_at : Option Nat
deriving DecidableEq, Repr

/-- `models.Device`: operational row; `organization` is a required foreign key
(modelled by the owning organization's id), `category`/`zone` likewise. -/
structure Device where
  id : Nat
  name : String
  category : Nat
  zone : Nat
  max_usage : Nat
  organization : Nat
  state : RecState
  created_at : Nat
  updated_at : Nat
  deleted_at : Option Nat
deriving DecidableEq, Repr

/-- `models.Measurement`: belongs to one Device; the `device` foreign key is
modelled by embedding the parent row (the ORM join `device__organization`
reads through it).  `usage` is a `FloatField`, modelled as `Rat`. -/
structure Measurement where
  id : Nat
  device : Device
  date : Nat
  usage : Rat
  state : RecState
  created_at : Nat
  updated_at : Nat
  deleted_at : Option Nat
deriving DecidableEq, Repr

/-- `models.Alert`: belongs to one Device (parent row embedded, as for
`Measurement`); `level` defaults `MEDIUM`, `is_resolved` defaults `false`. -/
structure Alert where
  id : Nat
  device : Device
  message : String
  date : Nat
  level : AlertLevel
  is_resolved : Bool
  state : RecState
  created_at : Nat
  updated_at : Nat
  deleted_at : Option Nat
deriving DecidableEq, Repr

/-- `models.UserProfile`: one-to-one with an auth user; `organization` is a
nullable foreign key, `role` defaults `VIEWER`. -/
structure UserProfile where
  organization : Option Nat
  role : Role
  phone : String
  state : RecState
  created_at : Nat
  updated_at : Nat
  deleted_at : Option Nat
deriving DecidableEq, Repr

/-- The acting auth user of a request: `request.user.is_superuser` plus the
optional reverse one-to-one `request.user.profile` (`hasattr(request.user,
"profile")` is `profile.isSome`). -/
structure AdminUser where
  is_superuser : Bool
  profile : Option UserProfile
deriving DecidableEq, Repr

/-! ## Record creation and save (entity lifecycle)

Creating a row fills every unspecified column with its model default
(`state="ACTIVE"`, `level="MEDIUM"`, `is_resolved=False`, `role="VIEWER"`,
`deleted_at=NULL`) and sets both `auto_now_add` (`created_at`, `date`) and
`auto_now` (`updated_at`) columns to the current instant.  A model `save()`
refreshes the `auto_now` column `updated_at`. -/

/-- Create a `Category` row at instant `now` with model defaults. -/
def newCategory (now id : Nat) (name : String) : Category :=
  { id := id, name := name, state := RecState.ACTIVE,
    created_at := now, updated_at := now, deleted_at := none }

/-- Create a `Zone` row at instant `now` with model defaults. -/
def newZone (now id : Nat) (name : String) : Zone :=
  { id := id, name := name, state := RecState.ACTIVE,
    created_at := now, updated_at := now, deleted_at := none }

/-- Create an `Organization` row at instant `now` with model defaults. -/
def newOrganization (now id : Nat) (name email : String) : Organization :=
  { id := id, name := name, email := email, state := RecState.ACTIVE,
    created_at := now, updated_at := now, deleted_at := none }

/-- Create a `Device` row at instant `now` with model defaults. -/
def newDevice (now id : Nat) (name : String)
    (category zone max_usage organization : Nat) : Device :=
  { id := id, name := name, category := category, zone := zone,
    max_usage := max_usage, organization := organization,
    state := RecState.ACTIVE, created_at := now, updated_at := now,
    deleted_at := none }

/-- Create a `Measurement` row at instant `now` with model defaults
(`date` is `auto_now_add`). -/
def newMeasurement (now id : Nat) (device : Device) (usage : Rat) : Measurement :=
  { id := id, device := device, date := now, usage := usage,
    state := RecState.ACTIVE, created_at := now, updated_at := now,
    deleted_at := none }

/-- Create an `Alert` row at instant `now` with model defaults
(`date` is `auto_now_add`, `level="MEDIUM"`, `is_resolved=False`). -/
def newAlert (now id : Nat) (device : Device) (message : String) : Alert :=
  { id := id, device := device, message := message, date := now,
    level := AlertLevel.MEDIUM, is_resolved := false,
    state := RecState.ACTIVE, created_at := now, updated_at := now,
    deleted_at := none }

/-- Create a `UserProfile` row at instant `now` with model defaults
(`role="VIEWER"`). -/
def newUserProfile (now : Nat) (organization : Option Nat) (phone : String) :
    UserProfile :=
  { organization := organization, role := Role.VIEWER, phone := phone,
    state := RecState.ACTIVE, created_at := now, updated_at := now,
    deleted_at := none }

/-- `Model.save()` at instant `now`: the `auto_now` column `updated_at` is
refreshed; every other column keeps the value being saved. -/
def Device.save (now : Nat) (d : Device) : Device :=
  { d with updated_at := now }

/-! ## UserProfile role-policy methods (`models.py` lines 259-271) -/

/-- `UserProfile.has_organization_access(self, organization)`:
`if self.user.is_superuser: return True` then
`return self.organization == organization`.  The owning auth user's
superuser flag is passed explicitly; Python `None == None` is `True`,
matched here by `Option.beq` on `none`. -/
def UserProfile.has_organization_access (self : UserProfile)
    (selfUserIsSuperuser : Bool) (organization : Option Nat) : Bool :=
  if selfUserIsSuperuser then true
  else self.organization == organization

/-- `UserProfile.can_edit_devices(self)`:
`return self.role in ["ADMIN", "OPERATOR", "MANAGER"]`. -/
def UserProfile.can_edit_devices (self : UserProfile) : Bool :=
  self.role == Role.ADMIN || self.role == Role.OPERATOR ||
    self.role == Role.MANAGER

/-- `UserProfile.can_view_all_organizations(self)`:
`return self.user.is_superuser or self.role == "ADMIN"`. -/
def UserProfile.can_view_all_organizations (self : UserProfile)
    (selfUserIsSuperuser : Bool) : Bool :=
  selfUserIsSuperuser || self.role == Role.ADMIN

/-! ## Admin querysets (`admin.py`)

`BaseModelAdmin` (lines 14-17) only configures the change form: the
`deleted_at` column is excluded from the form and the timestamps are
read-only.  It installs no queryset filter, and `models.py` defines no
custom manager, so the default queryset is all table rows — soft-deleted
rows included. -/

/-- `BaseModelAdmin.exclude`: columns hidden from the admin change form. -/
def baseModelAdminExclude : List String := ["deleted_at"]

/-- `BaseModelAdmin.readonly_fields`. -/
def baseModelAdminReadonlyFields : List String := ["created_at", "updated_at"]

/-- The default-manager queryset (`super().get_queryset(request)`): all
table rows; `models.py` installs no manager that filters `deleted_at`. -/
def baseGetQueryset {α : Type} (rows : List α) : List α := rows

/-- `OrganizationFilteredAdmin.get_queryset` (admin.py lines 23-48),
generic over the model class.  `orgField` is `some f` when
`hasattr(self.model, "organization")` holds (with `f` the column), and
`deviceField` is `some g` when `hasattr(self.model, "device")` holds;
`request.user.profile.organization` truthiness is the `Option` match. -/
def organizationFilteredGetQueryset {α : Type}
    (orgField : Option (α → Nat)) (deviceField : Option (α → Device))
    (user : AdminUser) (rows : List α) : List α :=
  let qs := baseGetQueryset rows
  if !user.is_superuser then
    match user.profile with
    | some profile =>
      match profile.organization with
      | some user_org =>
        match orgField with
        | some f => qs.filter (fun r => f r == user_org)
        | none =>
          match deviceField with
          | some g => qs.filter (fun r => (g r).organization == user_org)
          | none => []
      | none => []
    | none => []
  else
    qs

/-- `DeviceAdmin` queryset: `Device` has the `organization` column, so the
first `hasattr` branch applies. -/
def deviceGetQueryset (user : AdminUser) (rows : List Device) : List Device :=
  organizationFilteredGetQueryset (some Device.organization) none user rows

/-- `MeasurementAdmin` queryset: `Measurement` has no `organization` column
but has the `device` foreign key, so the `device__organization` branch
applies. -/
def measurementGetQueryset (user : AdminUser) (rows : List Measurement) :
    List Measurement :=
  organizationFilteredGetQueryset none (some Measurement.device) user rows

/-- `AlertAdmin` queryset: as for `Measurement`, filtered through
`device__organization`. -/
def alertGetQueryset (user : AdminUser) (rows : List Alert) : List Alert :=
  organizationFilteredGetQueryset none (some Alert.device) user rows

/-- `CategoryAdmin` extends `MasterDataAdmin`: no queryset override. -/
def categoryGetQueryset (_user : AdminUser) (rows : List Category) :
    List Category :=
  baseGetQueryset rows

/-- `ZoneAdmin` extends `MasterDataAdmin`: no queryset override. -/
def zoneGetQueryset (_user : AdminUser) (rows : List Zone) : List Zone :=
  baseGetQueryset rows

/-- `OrganizationAdmin` extends `MasterDataAdmin`: no queryset override. -/
def organizationGetQueryset (_user : AdminUser) (rows : List Organization) :
    List Organization :=
  baseGetQueryset rows

/-- `UserProfileAdmin` extends `BaseModelAdmin` directly (not the
organization-filtered admin): no queryset override, even though the model
has an `organization` column. -/
def userProfileGetQueryset (_user : AdminUser) (rows : List UserProfile) :
    List UserProfile :=
  baseGetQueryset rows

/-! ## Scope predicates

`get_queryset` returns, row for row, the rows satisfying a pure predicate
of (user, row); the predicate form is what the bulk-action pipeline
composes with the id selection.  `organizationFilteredGetQueryset` is
proved equal to `List.filter` of this predicate below
(`organizationFilteredGetQueryset_eq_filter`). -/

/-- The row predicate of `OrganizationFilteredAdmin.get_queryset`. -/
def organizationScopePred {α : Type}
    (orgField : Option (α → Nat)) (deviceField : Option (α → Device))
    (user : AdminUser) (r : α) : Bool :=
  if !user.is_superuser then
    match user.profile with
    | some profile =>
      match profile.organization with
      | some user_org =>
        match orgField with
        | some f => f r == user_org
        | none =>
          match deviceField with
          | some g => (g r).organization == user_org
          | none => false
      | none => false
    | none => false
  else
    true

/-- Scope predicate instantiated for `Device` rows. -/
def deviceScopePred (user : AdminUser) (d : Device) : Bool :=
  organizationScopePred (some Device.organization) none user d

/-- Scope predicate instantiated for `Alert` rows. -/
def alertScopePred (user : AdminUser) (a : Alert) : Bool :=
  organizationScopePred none (some Alert.device) user a

/-- Scope predicate instantiated for `Measurement` rows. -/
def measurementScopePred (user : AdminUser) (m : Measurement) : Bool :=
  organizationScopePred none (some Measurement.device) user m

/-! ## Bulk actions (`admin.py` DeviceAdmin / AlertAdmin)

The admin framework hands each action the queryset
`self.get_queryset(request).filter(pk__in=selected_ids)`, so an action's
queryset predicate is the scope predicate conjoined with membership of the
selected id set.  `queryset.update(...)` performs one atomic UPDATE of the
listed columns over every table row matching the queryset predicate —
bypassing `save()`, hence not touching `auto_now` columns — and returns the
matched-row count. -/

/-- `queryset.update(...)`: rewrite every row matching `p` by `f` (the
column assignment), leave the rest, and return the matched-row count. -/
def querysetUpdate {α : Type} (p : α → Bool) (f : α → α) (rows : List α) :
    List α × Nat :=
  (rows.map (fun r => if p r then f r else r), (rows.filter p).length)

/-- The queryset a `Device` bulk action receives: in scope and selected. -/
def deviceActionPred (user : AdminUser) (selected : List Nat) (d : Device) :
    Bool :=
  deviceScopePred user d && selected.contains d.id

/-- The queryset an `Alert` bulk action receives: in scope and selected. -/
def alertActionPred (user : AdminUser) (selected : List Nat) (a : Alert) :
    Bool :=
  alertScopePred user a && selected.contains a.id

/-- `DeviceAdmin.mark_as_active`: `queryset.update(state="ACTIVE")`;
returns the updated table and the reported count. -/
def mark_as_active (user : AdminUser) (selected : List Nat)
    (rows : List Device) : List Device × Nat :=
  querysetUpdate (deviceActionPred user selected)
    (fun d => { d with state := RecState.ACTIVE }) rows

/-- `DeviceAdmin.mark_as_inactive`: `queryset.update(state="INACTIVE")`. -/
def mark_as_inactive (user : AdminUser) (selected : List Nat)
    (rows : List Device) : List Device × Nat :=
  querysetUpdate (deviceActionPred user selected)
    (fun d => { d with state := RecState.INACTIVE }) rows

/-- `AlertAdmin.mark_as_resolved`: `queryset.update(is_resolved=True)`. -/
def mark_as_resolved (user : AdminUser) (selected : List Nat)
    (rows : List Alert) : List Alert × Nat :=
  querysetUpdate (alertActionPred user selected)
    (fun a => { a with is_resolved := true }) rows

/-- `AlertAdmin.mark_as_unresolved`: `queryset.update(is_resolved=False)`. -/
def mark_as_unresolved (user : AdminUser) (selected : List Nat)
    (rows : List Alert) : List Alert × Nat :=
  querysetUpdate (alertActionPred user selected)
    (fun a => { a with is_resolved := false }) rows

/-- Message levels of `message_user`: the default info level, or
`messages.WARNING`. -/
inductive MessageLevel where
  | INFO
  | WARNING
deriving DecidableEq, Repr

/-- `DeviceAdmin.generate_usage_report`: if `queryset.count() > 10`, signal
a warning and return without producing anything; otherwise report the
count.  The produced report is modelled by the `Option Nat` component
(`some count` when generated, `none` when rejected). -/
def generate_usage_report (user : AdminUser) (selected : List Nat)
    (rows : List Device) : MessageLevel × Option Nat :=
  let count := (rows.filter (deviceActionPred user selected)).length
  if count > 10 then (MessageLevel.WARNING, none)
  else (MessageLevel.INFO, some count)

/-! ## Entity lifecycle relation (for the audit-timestamp invariant)

A `Device` row evolves by being created (`newDevice`), saved
(`Device.save`, which refreshes `updated_at`), or hit by a bulk
`queryset.update(state=...)` (which rewrites only `state`).  The instant
index is the current time, assumed monotone along the history. -/

/-- The rows reachable at instant `t` through the entity lifecycle. -/
inductive DeviceEvolves : Nat → Device → Prop where
  | created (t id : Nat) (name : String) (category zone max_usage org : Nat) :
      DeviceEvolves t (newDevice t id name category zone max_usage org)
  | saved (t u : Nat) (d : Device) :
      DeviceEvolves t d → t ≤ u → DeviceEvolves u (Device.save u d)
  | bulkStateUpdated (t u : Nat) (d : Device) (s : RecState) :
      DeviceEvolves t d → t ≤ u → DeviceEvolves u { d with state := s }

/-! ## Reference algorithm of the specification (§4.1)

The spec tags each entity kind with a scoping strategy and gives a
reference algorithm for the visible scope.  This definition follows the
spec text, not the repository code, so that the code's querysets can be
compared against it. -/

/-- The spec's scoping strategy tag per entity kind. -/
inductive ScopingStrategy where
  | NONE
  | DIRECT
  | INDIRECT
deriving DecidableEq, Repr

/-- Modelled from the spec: the §4.1 reference algorithm for
`visible_scope(principal, entity_kind)`, as a predicate on a record's
effective organization (`record.organization` for `DIRECT`,
`record.device.organization` for `INDIRECT`; unused for `NONE`).  A global
admin is unrestricted; `NONE` kinds are unrestricted for every principal
("master data is always visible" — the organization-less-principal empty
scope governs the operational, `DIRECT`/`INDIRECT`, kinds); otherwise a
principal without profile or organization sees nothing, and an
organization member sees exactly its organization's records. -/
def visibleScopeSpec (principal : AdminUser) (strategy : ScopingStrategy)
    (recordEffectiveOrg : Nat) : Bool :=
  if principal.is_superuser then true
  else if strategy == ScopingStrategy.NONE then true
  else
    match principal.profile with
    | some p =>
      match p.organization with
      | some user_org => recordEffectiveOrg == user_org
      | none => false
    | none => false

/-! ## Helper lemmas -/

/-- `get_queryset` is the filter of its row predicate: the organization
scoping is a query-level filter over the table rows. -/
theorem organizationFilteredGetQueryset_eq_filter {α : Type}
    (orgField : Option (α → Nat)) (deviceField : Option (α → Device))
    (user : AdminUser) (rows : List α) :
    organizationFilteredGetQueryset orgField deviceField user rows =
      rows.filter (organizationScopePred orgField deviceField user) := by
  unfold organizationFilteredGetQueryset organizationScopePred baseGetQueryset
  cases hsu : user.is_superuser with
  | true => simp
  | false =>
    cases hpr : user.profile with
    | none => simp
    | some profile =>
      cases hpo : profile.organization with
      | none => simp [hpo]
      | some user_org =>
        cases orgField with
        | some f => simp [hpo]
        | none =>
          cases deviceField with
          | some g => simp [hpo]
          | none => simp [hpo]

/-- Filtering twice is filtering by the conjunction. -/
theorem filter_filter_eq_filter_and {α : Type} (p q : α → Bool) (l : List α) :
    (l.filter p).filter q = l.filter (fun a => p a && q a) := by
  induction l with
  | nil => rfl
  | cons a t ih => cases hp : p a <;> cases hq : q a <;> simp [hp, hq, ih]

/-- A bulk update keeps the table row count. -/
theorem querysetUpdate_fst_length {α : Type} (p : α → Bool) (f : α → α)
    (rows : List α) : (querysetUpdate p f rows).1.length = rows.length := by
  simp [querysetUpdate]

/-- A row on which the queryset predicate is false is returned unchanged by
a bulk update (frame property of `queryset.update`). -/
theorem querysetUpdate_get_of_pred_false {α : Type} (p : α → Bool)
    (f : α → α) (rows : List α) (i : Nat) (hi : i < rows.length)
    (hp : p (rows.get ⟨i, hi⟩) = false) :
    ∃ h : i < (querysetUpdate p f rows).1.length,
      (querysetUpdate p f rows).1.get ⟨i, h⟩ = rows.get ⟨i, hi⟩ := by
  have hp₂ : p rows[i] = false := by simpa using hp
  refine ⟨by simpa [querysetUpdate] using hi, ?_⟩
  simp [querysetUpdate, hp₂]

/-- The row rewrite of a bulk update is idempotent over a whole table when
it preserves the queryset predicate and is pointwise idempotent. -/
theorem map_update_idem {α : Type} (p : α → Bool) (f : α → α)
    (hp : ∀ a, p (f a) = p a) (hf : ∀ a, f (f a) = f a) (rows : List α) :
    (rows.map (fun r => if p r then f r else r)).map
        (fun r => if p r then f r else r)
      = rows.map (fun r => if p r then f r else r) := by
  induction rows with
  | nil => rfl
  | cons a t ih => cases hpa : p a <;> simp [hpa, hp, hf, ih]

/-- A bulk update leaves the queryset predicate of every row unchanged when
the rewrite preserves it. -/
theorem querysetUpdate_pred_stable {α : Type} (p : α → Bool) (f : α → α)
    (hp : ∀ a, p (f a) = p a) (rows : List α) :
    ((querysetUpdate p f rows).1.filter p).length = (rows.filter p).length := by
  simp only [querysetUpdate]
  induction rows with
  | nil => rfl
  | cons a t ih => cases hpa : p a <;> simp [hpa, hp, ih]

/-- Applying a bulk update twice gives the same table and the same count as
applying it once, when the rewrite preserves the predicate and is
idempotent. -/
theorem querysetUpdate_idem {α : Type} (p : α → Bool) (f : α → α)
    (hp : ∀ a, p (f a) = p a) (hf : ∀ a, f (f a) = f a) (rows : List α) :
    querysetUpdate p f (querysetUpdate p f rows).1 = querysetUpdate p f rows := by
  have hmap := map_update_idem p f hp hf rows
  have hcount := querysetUpdate_pred_stable p f hp rows
  simp only [querysetUpdate] at hmap hcount ⊢
  exact congrArg₂ Prod.mk hmap hcount

/-- A bulk update preserves any column the rewrite does not assign. -/
theorem querysetUpdate_preserves_proj {α β : Type} (p : α → Bool)
    (f : α → α) (proj : α → β) (hproj : ∀ a, proj (f a) = proj a)
    (rows : List α) :
    (querysetUpdate p f rows).1.map proj = rows.map proj := by
  simp only [querysetUpdate]
  induction rows with
  | nil => rfl
  | cons a t ih => cases hpa : p a <;> simp [hpa, hproj, ih]

/-- The `Device` scope predicate agrees pointwise with the spec's `DIRECT`
reference predicate. -/
theorem deviceScopePred_eq_spec (user : AdminUser) (d : Device) :
    organizationScopePred (some Device.organization) none user d
      = visibleScopeSpec user ScopingStrategy.DIRECT d.organization := by
  unfold organizationScopePred visibleScopeSpec
  cases hsu : user.is_superuser with
  | true => simp
  | false =>
    cases hpr : user.profile with
    | none => simp
    | some p =>
      cases hpo : p.organization with
      | none => simp [hpo]
      | some o => simp [hpo]

/-- The `Measurement` scope predicate agrees pointwise with the spec's
`INDIRECT` reference predicate. -/
theorem measurementScopePred_eq_spec (user : AdminUser) (m : Measurement) :
    organizationScopePred none (some Measurement.device) user m
      = visibleScopeSpec user ScopingStrategy.INDIRECT m.device.organization := by
  unfold organizationScopePred visibleScopeSpec
  cases hsu : user.is_superuser with
  | true => simp
  | false =>
    cases hpr : user.profile with
    | none => simp
    | some p =>
      cases hpo : p.organization with
      | none => simp [hpo]
      | some o => simp [hpo]

/-- The `Alert` scope predicate agrees pointwise with the spec's
`INDIRECT` reference predicate. -/
theorem alertScopePred_eq_spec (user : AdminUser) (a : Alert) :
    organizationScopePred none (some Alert.device) user a
      = visibleScopeSpec user ScopingStrategy.INDIRECT a.device.organization := by
  unfold organizationScopePred visibleScopeSpec
  cases hsu : user.is_superuser with
  | true => simp
  | false =>
    cases hpr : user.profile with
    | none => simp
    | some p =>
      cases hpo : p.organization with
      | none => simp [hpo]
      | some o => simp [hpo]

/-- The spec's reference predicate is constantly true for `NONE` kinds. -/
theorem visibleScopeSpec_none_kind (user : AdminUser) (x : Nat) :
    visibleScopeSpec user ScopingStrategy.NONE x = true := by
  unfold visibleScopeSpec
  cases user.is_superuser <;> simp

/-! ## Claims -/

/-- C1: for every principal and entity kind, the admin-visible scope equals
the spec's §4.1 reference algorithm: a superuser is unrestricted; for the
`DIRECT` kind (Device) an organization member sees exactly the rows with
`organization` equal to its profile's organization, for the `INDIRECT`
kinds (Measurement, Alert) exactly the rows with `device.organization`
equal to it, and a principal without profile or organization sees nothing;
the `NONE` kinds (Category, Zone, Organization, UserProfile) are
unrestricted for every principal. -/
theorem visible_scope_matches_spec_algorithm (user : AdminUser)
    (cs : List Category) (zs : List Zone) (os : List Organization)
    (ds : List Device) (ms : List Measurement) (als : List Alert)
    (ps : List UserProfile) :
    deviceGetQueryset user ds
        = ds.filter
            (fun d => visibleScopeSpec user ScopingStrategy.DIRECT d.organization)
    ∧ measurementGetQueryset user ms
        = ms.filter
            (fun m =>
              visibleScopeSpec user ScopingStrategy.INDIRECT m.device.organization)
    ∧ alertGetQueryset user als
        = als.filter
            (fun a =>
              visibleScopeSpec user ScopingStrategy.INDIRECT a.device.organization)
    ∧ categoryGetQueryset user cs
        = cs.filter (fun _ => visibleScopeSpec user ScopingStrategy.NONE 0)
    ∧ zoneGetQueryset user zs
        = zs.filter (fun _ => visibleScopeSpec user ScopingStrategy.NONE 0)
    ∧ organizationGetQueryset user os
        = os.filter (fun _ => visibleScopeSpec user ScopingStrategy.NONE 0)
    ∧ userProfileGetQueryset user ps
        = ps.filter (fun _ => visibleScopeSpec user ScopingStrategy.NONE 0) := by
  refine ⟨?_, ?_, ?_, ?_, ?_, ?_, ?_⟩
  · unfold deviceGetQueryset
    rw [organizationFilteredGetQueryset_eq_filter]
    exact congrArg (fun p => List.filter p ds)
      (funext (deviceScopePred_eq_spec user))
  · unfold measurementGetQueryset
    rw [organizationFilteredGetQueryset_eq_filter]
    exact congrArg (fun p => List.filter p ms)
      (funext (measurementScopePred_eq_spec user))
  · unfold alertGetQueryset
    rw [organizationFilteredGetQueryset_eq_filter]
    exact congrArg (fun p => List.filter p als)
      (funext (alertScopePred_eq_spec user))
  · unfold categoryGetQueryset baseGetQueryset
    simp [visibleScopeSpec_none_kind]
  · unfold zoneGetQueryset baseGetQueryset
    simp [visibleScopeSpec_none_kind]
  · unfold organizationGetQueryset baseGetQueryset
    simp [visibleScopeSpec_none_kind]
  · unfold userProfileGetQueryset baseGetQueryset
    simp [visibleScopeSpec_none_kind]

/-- C2: a non-superuser principal with no profile, or whose profile has a
null organization, has an empty visible scope for every operational
(`DIRECT`/`INDIRECT`) kind — Device, Measurement and Alert querysets are
all empty; the policy never falls through to an unrestricted result. -/
theorem operational_scope_fail_closed (user : AdminUser)
    (hsu : user.is_superuser = false)
    (hnoorg : user.profile = none
      ∨ ∃ p, user.profile = some p ∧ p.organization = none)
    (ds : List Device) (ms : List Measurement) (als : List Alert) :
    deviceGetQueryset user ds = []
    ∧ measurementGetQueryset user ms = []
    ∧ alertGetQueryset user als = [] := by
  unfold deviceGetQueryset measurementGetQueryset alertGetQueryset
    organizationFilteredGetQueryset baseGetQueryset
  rcases hnoorg with h | ⟨p, hp, ho⟩
  · simp [hsu, h]
  · simp [hsu, hp, ho]

/-- Witness for C2: a profile-less non-superuser, and a non-superuser whose
profile has a null organization, both see empty Device, Measurement and
Alert scopes on concrete non-empty tables. -/
theorem operational_scope_fail_closed_witness :
    (deviceGetQueryset ⟨false, none⟩ [newDevice 0 1 "D" 1 1 100 1] = []
      ∧ measurementGetQueryset ⟨false, none⟩
          [newMeasurement 0 1 (newDevice 0 1 "D" 1 1 100 1) 5] = []
      ∧ alertGetQueryset ⟨false, none⟩
          [newAlert 0 1 (newDevice 0 1 "D" 1 1 100 1) "m"] = [])
    ∧ (deviceGetQueryset ⟨false, some (newUserProfile 0 none "")⟩
          [newDevice 0 1 "D" 1 1 100 1] = []
      ∧ measurementGetQueryset ⟨false, some (newUserProfile 0 none "")⟩
          [newMeasurement 0 1 (newDevice 0 1 "D" 1 1 100 1) 5] = []
      ∧ alertGetQueryset ⟨false, some (newUserProfile 0 none "")⟩
          [newAlert 0 1 (newDevice 0 1 "D" 1 1 100 1) "m"] = []) := by
  constructor
  · exact operational_scope_fail_closed ⟨false, none⟩ rfl (Or.inl rfl) _ _ _
  · exact operational_scope_fail_closed ⟨false, some (newUserProfile 0 none "")⟩
      rfl (Or.inr ⟨newUserProfile 0 none "", rfl, rfl⟩) _ _ _

/-- C4 counterexample: a non-superuser profile whose organization is null,
compared against a null organization — `has_organization_access` returns
`true` (Python `None == None` is `True`), whereas the claim demands
`false`. -/
theorem has_organization_access_null_null_counterexample :
    (newUserProfile 0 none "").has_organization_access false none = true := rfl

/-- C4 amended: `has_organization_access(profile, organization)` is true
iff the profile's auth user is a superuser or `profile.organization`
equals the compared organization, where a null organization compares
equal to a null organization (access is granted in the both-null case). -/
theorem has_organization_access_amended (p : UserProfile) (su : Bool)
    (org : Option Nat) :
    p.has_organization_access su org = true
      ↔ su = true ∨ p.organization = org := by
  unfold UserProfile.has_organization_access
  cases su <;> simp

/-- C10: creation defaults — every newly created record has
`state = ACTIVE`, a new Alert has `level = MEDIUM` and
`is_resolved = false`, and a new UserProfile has `role = VIEWER`. -/
theorem creation_defaults (now id : Nat) (name email phone message : String)
    (category zone max_usage org : Nat) (d : Device) (usage : Rat)
    (po : Option Nat) :
    (newCategory now id name).state = RecState.ACTIVE
    ∧ (newZone now id name).state = RecState.ACTIVE
    ∧ (newOrganization now id name email).state = RecState.ACTIVE
    ∧ (newDevice now id name category zone max_usage org).state
        = RecState.ACTIVE
    ∧ (newMeasurement now id d usage).state = RecState.ACTIVE
    ∧ (newAlert now id d message).state = RecState.ACTIVE
    ∧ (newAlert now id d message).level = AlertLevel.MEDIUM
    ∧ (newAlert now id d message).is_resolved = false
    ∧ (newUserProfile now po phone).state = RecState.ACTIVE
    ∧ (newUserProfile now po phone).role = Role.VIEWER :=
  ⟨rfl, rfl, rfl, rfl, rfl, rfl, rfl, rfl, rfl, rfl⟩

/-- C3: no bulk mutating action ever mutates a row outside the principal's
visible scope — for each of `mark_as_active`, `mark_as_inactive`,
`mark_as_resolved`, `mark_as_unresolved`, a table row outside the scope
predicate comes back unchanged, whatever the selected id set. -/
theorem bulk_actions_frame_out_of_scope (user : AdminUser)
    (selected : List Nat) (ds : List Device) (als : List Alert)
    (i : Nat) (hi : i < ds.length) (j : Nat) (hj : j < als.length)
    (hdo : deviceScopePred user (ds.get ⟨i, hi⟩) = false)
    (hao : alertScopePred user (als.get ⟨j, hj⟩) = false) :
    (∃ h, (mark_as_active user selected ds).1.get ⟨i, h⟩ = ds.get ⟨i, hi⟩)
    ∧ (∃ h, (mark_as_inactive user selected ds).1.get ⟨i, h⟩ = ds.get ⟨i, hi⟩)
    ∧ (∃ h, (mark_as_resolved user selected als).1.get ⟨j, h⟩
        = als.get ⟨j, hj⟩)
    ∧ (∃ h, (mark_as_unresolved user selected als).1.get ⟨j, h⟩
        = als.get ⟨j, hj⟩) := by
  have hdo₂ : deviceScopePred user ds[i] = false := by simpa using hdo
  have hao₂ : alertScopePred user als[j] = false := by simpa using hao
  have hd : deviceActionPred user selected (ds.get ⟨i, hi⟩) = false := by
    simp [deviceActionPred, hdo₂]
  have ha : alertActionPred user selected (als.get ⟨j, hj⟩) = false := by
    simp [alertActionPred, hao₂]
  exact ⟨querysetUpdate_get_of_pred_false _ _ _ _ hi hd,
    querysetUpdate_get_of_pred_false _ _ _ _ hi hd,
    querysetUpdate_get_of_pred_false _ _ _ _ hj ha,
    querysetUpdate_get_of_pred_false _ _ _ _ hj ha⟩

/-- Witness for C3, the spec's scenario: organization 1 owns device D1,
organization 2 owns device D2 (inactive) with an alert; the viewer
principal of organization 1 lists only D1 and its bulk actions applied to
the selection [2] (respectively the alert's id) leave D2 and the alert
unchanged. -/
theorem bulk_actions_frame_out_of_scope_witness :
    deviceGetQueryset ⟨false, some (newUserProfile 0 (some 1) "")⟩
        [newDevice 0 1 "D1" 1 1 100 1,
          { newDevice 0 2 "D2" 1 1 100 2 with state := RecState.INACTIVE }]
      = [newDevice 0 1 "D1" 1 1 100 1]
    ∧ (∃ h,
        (mark_as_active ⟨false, some (newUserProfile 0 (some 1) "")⟩ [2]
            [newDevice 0 1 "D1" 1 1 100 1,
              { newDevice 0 2 "D2" 1 1 100 2 with
                  state := RecState.INACTIVE }]).1.get ⟨1, h⟩
          = { newDevice 0 2 "D2" 1 1 100 2 with state := RecState.INACTIVE })
    ∧ (∃ h,
        (mark_as_inactive ⟨false, some (newUserProfile 0 (some 1) "")⟩ [2]
            [newDevice 0 1 "D1" 1 1 100 1,
              { newDevice 0 2 "D2" 1 1 100 2 with
                  state := RecState.INACTIVE }]).1.get ⟨1, h⟩
          = { newDevice 0 2 "D2" 1 1 100 2 with state := RecState.INACTIVE })
    ∧ (∃ h,
        (mark_as_resolved ⟨false, some (newUserProfile 0 (some 1) "")⟩ [1]
            [newAlert 0 1 (newDevice 0 2 "D2" 1 1 100 2) "over"]).1.get ⟨0, h⟩
          = newAlert 0 1 (newDevice 0 2 "D2" 1 1 100 2) "over")
    ∧ (∃ h,
        (mark_as_unresolved ⟨false, some (newUserProfile 0 (some 1) "")⟩ [1]
            [newAlert 0 1 (newDevice 0 2 "D2" 1 1 100 2) "over"]).1.get ⟨0, h⟩
          = newAlert 0 1 (newDevice 0 2 "D2" 1 1 100 2) "over") := by
  have hfr := bulk_actions_frame_out_of_scope
    ⟨false, some (newUserProfile 0 (some 1) "")⟩ [2]
    [newDevice 0 1 "D1" 1 1 100 1,
      { newDevice 0 2 "D2" 1 1 100 2 with state := RecState.INACTIVE }]
    [newAlert 0 1 (newDevice 0 2 "D2" 1 1 100 2) "over"]
    1 (by decide) 0 (by decide) (by decide) (by decide)
  have hfr₂ := bulk_actions_frame_out_of_scope
    ⟨false, some (newUserProfile 0 (some 1) "")⟩ [1]
    [newDevice 0 1 "D1" 1 1 100 1,
      { newDevice 0 2 "D2" 1 1 100 2 with state := RecState.INACTIVE }]
    [newAlert 0 1 (newDevice 0 2 "D2" 1 1 100 2) "over"]
    1 (by decide) 0 (by decide) (by decide) (by decide)
  exact ⟨rfl, hfr.1, hfr₂.2.1, hfr₂.2.2.1, hfr₂.2.2.2⟩

/-- C5 counterexample: a soft-deleted row (`deleted_at` non-null) is NOT
excluded: an organization member lists its organization's soft-deleted
device, and `mark_as_active` mutates it and counts it. -/
theorem soft_deleted_visible_counterexample :
    deviceGetQueryset ⟨false, some (newUserProfile 0 (some 1) "")⟩
        [{ newDevice 0 1 "D" 1 1 100 1 with
            state := RecState.INACTIVE, deleted_at := some 5 }]
      = [{ newDevice 0 1 "D" 1 1 100 1 with
            state := RecState.INACTIVE, deleted_at := some 5 }]
    ∧ (mark_as_active ⟨false, some (newUserProfile 0 (some 1) "")⟩ [1]
        [{ newDevice 0 1 "D" 1 1 100 1 with
            state := RecState.INACTIVE, deleted_at := some 5 }]).2 = 1
    ∧ (mark_as_active ⟨false, some (newUserProfile 0 (some 1) "")⟩ [1]
        [{ newDevice 0 1 "D" 1 1 100 1 with
            state := RecState.INACTIVE, deleted_at := some 5 }]).1
      = [{ newDevice 0 1 "D" 1 1 100 1 with deleted_at := some 5 }] :=
  ⟨rfl, rfl, rfl⟩

/-- C5 amended: `deleted_at` plays no part in the visible scope or in the
bulk actions — the scope and action-queryset predicates are independent of
`deleted_at`, and the repository's only handling of the column is its
exclusion from the admin change form. -/
theorem soft_delete_not_filtered_amended (user : AdminUser)
    (selected : List Nat) (d : Device) (m : Measurement) (a : Alert)
    (dt : Option Nat) :
    deviceScopePred user { d with deleted_at := dt } = deviceScopePred user d
    ∧ measurementScopePred user { m with deleted_at := dt }
        = measurementScopePred user m
    ∧ alertScopePred user { a with deleted_at := dt } = alertScopePred user a
    ∧ deviceActionPred user selected { d with deleted_at := dt }
        = deviceActionPred user selected d
    ∧ alertActionPred user selected { a with deleted_at := dt }
        = alertActionPred user selected a
    ∧ "deleted_at" ∈ baseModelAdminExclude :=
  ⟨rfl, rfl, rfl, rfl, rfl, by simp [baseModelAdminExclude]⟩

/-- The action queryset the admin passes to `generate_usage_report`
(visible scope restricted to the selected ids) has the same row count as
the conjunction predicate over the raw table. -/
theorem device_action_queryset_count (user : AdminUser) (selected : List Nat)
    (rows : List Device) :
    ((deviceGetQueryset user rows).filter
        (fun d => selected.contains d.id)).length
      = (rows.filter (deviceActionPred user selected)).length := by
  unfold deviceGetQueryset
  rw [organizationFilteredGetQueryset_eq_filter, filter_filter_eq_filter_and]
  rfl

/-- C6: `generate_usage_report` over an action queryset of more than 10
rows signals a warning and produces no report; over 10 or fewer rows it
succeeds and reports the row count. -/
theorem usage_report_cap (user : AdminUser) (selected : List Nat)
    (rows : List Device) :
    (10 < ((deviceGetQueryset user rows).filter
          (fun d => selected.contains d.id)).length →
        generate_usage_report user selected rows = (MessageLevel.WARNING, none))
    ∧ (((deviceGetQueryset user rows).filter
          (fun d => selected.contains d.id)).length ≤ 10 →
        generate_usage_report user selected rows
          = (MessageLevel.INFO,
              some ((deviceGetQueryset user rows).filter
                (fun d => selected.contains d.id)).length)) := by
  constructor
  · intro h
    rw [device_action_queryset_count] at h
    unfold generate_usage_report
    simp [h]
  · intro h
    rw [device_action_queryset_count] at h
    unfold generate_usage_report
    have hn : ¬ (rows.filter (deviceActionPred user selected)).length > 10 := by
      omega
    simp only [hn, if_false, ite_false]
    rw [device_action_queryset_count]

/-- Witness for C6: an 11-device selection is rejected with a warning and
no report; a 2-device selection succeeds, reporting the count 2. -/
theorem usage_report_cap_witness :
    generate_usage_report ⟨true, none⟩ ((List.range 11).map (fun i => i + 1))
        ((List.range 11).map (fun i => newDevice 0 (i + 1) "" 1 1 100 1))
      = (MessageLevel.WARNING, none)
    ∧ generate_usage_report ⟨true, none⟩ [1, 2]
        [newDevice 0 1 "" 1 1 100 1, newDevice 0 2 "" 1 1 100 1]
      = (MessageLevel.INFO, some 2) := by
  constructor
  · exact (usage_report_cap ⟨true, none⟩ _ _).1 (by decide)
  · exact (usage_report_cap ⟨true, none⟩ _ _).2 (by decide)

/-- C7: `mark_as_active` and `mark_as_inactive` are idempotent: on a
selection with at least one row in the action queryset, applying the
action twice yields the same table and the same count as applying it once,
and the affected count is non-zero (already-active rows still count). -/
theorem mark_active_inactive_idempotent (user : AdminUser)
    (selected : List Nat) (rows : List Device)
    (hne : ∃ d ∈ rows, deviceActionPred user selected d = true) :
    mark_as_active user selected (mark_as_active user selected rows).1
        = mark_as_active user selected rows
    ∧ 0 < (mark_as_active user selected rows).2
    ∧ mark_as_inactive user selected (mark_as_inactive user selected rows).1
        = mark_as_inactive user selected rows
    ∧ 0 < (mark_as_inactive user selected rows).2 := by
  have hpos : 0 < (rows.filter (deviceActionPred user selected)).length := by
    obtain ⟨d, hd, hpd⟩ := hne
    exact List.length_pos.mpr
      (List.ne_nil_of_mem (List.mem_filter.mpr ⟨hd, hpd⟩))
  refine ⟨?_, hpos, ?_, hpos⟩
  · exact querysetUpdate_idem (deviceActionPred user selected)
      (fun d => { d with state := RecState.ACTIVE })
      (fun d => rfl) (fun d => rfl) rows
  · exact querysetUpdate_idem (deviceActionPred user selected)
      (fun d => { d with state := RecState.INACTIVE })
      (fun d => rfl) (fun d => rfl) rows

/-- Witness for C7: an organization member re-applies both actions to its
own selected device; tables and counts repeat, and the count is 1. -/
theorem mark_active_inactive_idempotent_witness :
    mark_as_active ⟨false, some (newUserProfile 0 (some 1) "")⟩ [1]
        (mark_as_active ⟨false, some (newUserProfile 0 (some 1) "")⟩ [1]
          [newDevice 0 1 "D" 1 1 100 1]).1
      = mark_as_active ⟨false, some (newUserProfile 0 (some 1) "")⟩ [1]
          [newDevice 0 1 "D" 1 1 100 1]
    ∧ 0 < (mark_as_active ⟨false, some (newUserProfile 0 (some 1) "")⟩ [1]
        [newDevice 0 1 "D" 1 1 100 1]).2
    ∧ mark_as_inactive ⟨false, some (newUserProfile 0 (some 1) "")⟩ [1]
        (mark_as_inactive ⟨false, some (newUserProfile 0 (some 1) "")⟩ [1]
          [newDevice 0 1 "D" 1 1 100 1]).1
      = mark_as_inactive ⟨false, some (newUserProfile 0 (some 1) "")⟩ [1]
          [newDevice 0 1 "D" 1 1 100 1]
    ∧ 0 < (mark_as_inactive ⟨false, some (newUserProfile 0 (some 1) "")⟩ [1]
        [newDevice 0 1 "D" 1 1 100 1]).2 :=
  mark_active_inactive_idempotent _ _ _
    ⟨newDevice 0 1 "D" 1 1 100 1, by decide, by decide⟩

/-- C8 counterexample: a bulk `mark_as_inactive` flips the device's state
but leaves `updated_at` at its creation instant — `queryset.update`
bypasses `save()` and the `auto_now` refresh, so the bulk mutations do not
refresh `updated_at`. -/
theorem bulk_update_no_refresh_counterexample :
    (mark_as_inactive ⟨true, none⟩ [1]
        [newDevice 0 1 "D" 1 1 100 1]).1.map Device.state
      = [RecState.INACTIVE]
    ∧ (mark_as_inactive ⟨true, none⟩ [1]
        [newDevice 0 1 "D" 1 1 100 1]).1.map Device.updated_at = [0]
    ∧ (newDevice 0 1 "D" 1 1 100 1).updated_at = 0 :=
  ⟨rfl, rfl, rfl⟩

/-- Timestamps along the device lifecycle: with a monotone clock, a
reachable row's `created_at` never exceeds its `updated_at`, and the
`updated_at` never exceeds the current instant. -/
theorem deviceEvolves_timestamps (t : Nat) (d : Device)
    (h : DeviceEvolves t d) :
    d.created_at ≤ d.updated_at ∧ d.updated_at ≤ t := by
  induction h with
  | created t id name category zone max_usage org =>
    exact ⟨Nat.le_refl _, Nat.le_refl _⟩
  | saved t u d hd hle ih =>
    exact ⟨Nat.le_trans ih.1 (Nat.le_trans ih.2 hle), Nat.le_refl u⟩
  | bulkStateUpdated t u d s hd hle ih =>
    exact ⟨ih.1, Nat.le_trans ih.2 hle⟩

/-- C8 amended: `updated_at` is refreshed by `save()` (`auto_now`) but NOT
by the bulk actions, which rewrite only their assigned column; the
invariant `created_at ≤ updated_at` still holds for every row reachable
through creation, saves and bulk state updates under a monotone clock. -/
theorem updated_at_invariant_amended (t : Nat) (d : Device)
    (h : DeviceEvolves t d) (user : AdminUser) (selected : List Nat)
    (ds : List Device) (als : List Alert) :
    d.created_at ≤ d.updated_at
    ∧ (mark_as_active user selected ds).1.map Device.updated_at
        = ds.map Device.updated_at
    ∧ (mark_as_inactive user selected ds).1.map Device.updated_at
        = ds.map Device.updated_at
    ∧ (mark_as_resolved user selected als).1.map Alert.updated_at
        = als.map Alert.updated_at
    ∧ (mark_as_unresolved user selected als).1.map Alert.updated_at
        = als.map Alert.updated_at := by
  refine ⟨(deviceEvolves_timestamps t d h).1, ?_, ?_, ?_, ?_⟩
  · exact querysetUpdate_preserves_proj (deviceActionPred user selected)
      (fun d => { d with state := RecState.ACTIVE }) Device.updated_at
      (fun _ => rfl) ds
  · exact querysetUpdate_preserves_proj (deviceActionPred user selected)
      (fun d => { d with state := RecState.INACTIVE }) Device.updated_at
      (fun _ => rfl) ds
  · exact querysetUpdate_preserves_proj (alertActionPred user selected)
      (fun a => { a with is_resolved := true }) Alert.updated_at
      (fun _ => rfl) als
  · exact querysetUpdate_preserves_proj (alertActionPred user selected)
      (fun a => { a with is_resolved := false }) Alert.updated_at
      (fun _ => rfl) als

/-- Witness for C8 (amended): a device created at instant 0 and saved at
instant 5 satisfies the timestamp invariant, and the four bulk actions
leave the `updated_at` column of concrete tables untouched. -/
theorem updated_at_invariant_amended_witness :
    (Device.save 5 (newDevice 0 1 "D" 1 1 100 1)).created_at
        ≤ (Device.save 5 (newDevice 0 1 "D" 1 1 100 1)).updated_at
    ∧ (mark_as_active ⟨true, none⟩ [1]
        [newDevice 0 1 "D" 1 1 100 1]).1.map Device.updated_at
      = [newDevice 0 1 "D" 1 1 100 1].map Device.updated_at
    ∧ (mark_as_inactive ⟨true, none⟩ [1]
        [newDevice 0 1 "D" 1 1 100 1]).1.map Device.updated_at
      = [newDevice 0 1 "D" 1 1 100 1].map Device.updated_at
    ∧ (mark_as_resolved ⟨true, none⟩ [1]
        [newAlert 0 1 (newDevice 0 1 "D" 1 1 100 1) "m"]).1.map Alert.updated_at
      = [newAlert 0 1 (newDevice 0 1 "D" 1 1 100 1) "m"].map Alert.updated_at
    ∧ (mark_as_unresolved ⟨true, none⟩ [1]
        [newAlert 0 1 (newDevice 0 1 "D" 1 1 100 1) "m"]).1.map Alert.updated_at
      = [newAlert 0 1 (newDevice 0 1 "D" 1 1 100 1) "m"].map Alert.updated_at :=
  updated_at_invariant_amended 5 _
    (DeviceEvolves.saved 0 5 _
      (DeviceEvolves.created 0 1 "D" 1 1 100 1) (by decide))
    ⟨true, none⟩ [1] [newDevice 0 1 "D" 1 1 100 1]
    [newAlert 0 1 (newDevice 0 1 "D" 1 1 100 1) "m"]

/-- C9: `can_view_all_organizations` is true iff the auth user is a
superuser or the profile role is ADMIN, while the queryset filtering never
consults the role: two principals identical but for their profile role
receive exactly the same Device, Measurement and Alert querysets. -/
theorem role_grants_no_queryset_visibility (su : Bool) (p : UserProfile)
    (r₁ r₂ : Role) (ds : List Device) (ms : List Measurement)
    (als : List Alert) :
    (p.can_view_all_organizations su = true ↔ su = true ∨ p.role = Role.ADMIN)
    ∧ deviceGetQueryset ⟨su, some { p with role := r₁ }⟩ ds
        = deviceGetQueryset ⟨su, some { p with role := r₂ }⟩ ds
    ∧ measurementGetQueryset ⟨su, some { p with role := r₁ }⟩ ms
        = measurementGetQueryset ⟨su, some { p with role := r₂ }⟩ ms
    ∧ alertGetQueryset ⟨su, some { p with role := r₁ }⟩ als
        = alertGetQueryset ⟨su, some { p with role := r₂ }⟩ als := by
  refine ⟨?_, ?_, ?_, ?_⟩
  · unfold UserProfile.can_view_all_organizations
    cases su <;> simp
  · cases su <;> cases hpo : p.organization <;> rfl
  · cases su <;> cases hpo : p.organization <;> rfl
  · cases su <;> cases hpo : p.organization <;> rfl

end EcoEnergy
